import Mathlib

/-!
Shallow embedding of the PAL gfx9 HS pipeline-chunk stage programmer
(src/src/core/hw/gfxip/gfx9/gfx9PipelineChunkHs.cpp) and of the PAL code
object metadata interface (src/inc/core/g_palPipelineAbiMetadata.h),
together with theorems about the behaviour of `LateInit`,
`WriteShCommands` and the metadata deserializer.

Modelling conventions:
- machine integers are `Nat` with explicit `% 2^w` where the source
  truncates (bit-field assignment, 32-bit address parts);
- registers are stored as their packed 32-bit value (`u32All` in the
  source); the named bit-fields `CU_EN` (bits 0..15) and `WAVE_LIMIT`
  (bits 16..21) of `SPI_SHADER_PGM_RSRC3_HS` / `..RSRC4_HS` are accessed
  through explicit get/set helpers;
- external lookup services (the symbol uploader, the ABI reader and the
  register vector) are function-valued parameters, as in the source they
  are opaque interfaces;
- the build configuration embedded is the one with `PAL_AMDGPU_BUILD`
  defined and `PAL_CLIENT_INTERFACE_MAJOR_VERSION < 580` (so the legacy
  deserialize overload exists), matching the spec text which calls the
  GFX9 wave-limit defect compensation mandatory;
- numeric register-address constants stand in for the external hardware
  header constants; only their distinctness matters to any theorem.
-/

namespace Pal

/-- Hardware generation level of the device (`GfxIpLevel` in PAL);
only the distinction gfx9 versus gfx10+ matters to this chunk. -/
inductive GfxIpLevel where
  | gfx9
  | gfx10_1
  | gfx10_3
deriving DecidableEq, Repr

/-- Source helper `IsGfx9(gfxLevel)`. -/
def IsGfx9 (l : GfxIpLevel) : Bool :=
  match l with
  | GfxIpLevel.gfx9 => true
  | _ => false

/-- Source helper `IsGfx10Plus(gfxLevel)`. -/
def IsGfx10Plus (l : GfxIpLevel) : Bool :=
  match l with
  | GfxIpLevel.gfx9 => false
  | _ => true

/-- Pipeline symbol kinds used by this chunk (`Abi::PipelineSymbolType`). -/
inductive PipelineSymbolType where
  | HsMainEntry
  | HsShdrIntrlTblPtr
  | HsDisassembly
deriving DecidableEq, Repr

/-- Hardware stage identifiers (`Abi::HardwareStage`). -/
inductive HardwareStage where
  | Ls
  | Hs
  | Es
  | Gs
  | Vs
  | Ps
  | Cs
deriving DecidableEq, Repr

/-- Resolved GPU symbol (`GpuSymbol`): virtual address and size. -/
structure GpuSymbol where
  gpuVirtAddr : Nat
  size : Nat
deriving DecidableEq, Repr

/-- ELF symbol table entry; only `st_size` is consumed by this chunk. -/
structure SymbolTableEntry where
  st_size : Nat
deriving DecidableEq, Repr

/-- Performance-data buffer descriptor (`PerfDataInfo`). -/
structure PerfDataInfo where
  regOffset : Nat
  gpuVirtAddr : Nat
deriving DecidableEq, Repr

/-- Runtime overrides passed to `WriteShCommands` (`DynamicStageInfo`). -/
structure DynamicStageInfo where
  wavesPerSh : Nat
  cuEnableMask : Nat
deriving DecidableEq, Repr

/-- Chip properties consumed by this chunk (`GpuChipProperties`):
the generation level and the `gfx9.supportSpp` capability bit. -/
structure GpuChipProperties where
  gfxLevel : GfxIpLevel
  supportSpp : Bool
deriving DecidableEq, Repr

/-- Device model: chip properties plus the device services the chunk
calls (`GetCuEnableMask`, `GetCuEnableMaskHi`, `GetMaxWavesPerSh`,
`Device::AdjustCuEnHi`) and the device-dependent register addresses
from `RegisterInfo`. The service results are opaque data here. -/
structure Device where
  chipProps : GpuChipProperties
  cuEnableMask : Nat
  cuEnableMaskHi : Nat
  maxWavesPerSh : Nat
  adjustCuEnHi : Nat → Nat → Nat
  mmUserDataStartHsShaderStage : Nat
  mmSpiShaderPgmLoLs : Nat

/-- Register-value lookup (`RegisterVector`): `At` returns the value of a
mandatory entry, `HasEntry` reports an optional entry together with its
value when present (the source writes through an out-pointer). -/
structure RegisterVector where
  At : Nat → Nat
  HasEntry : Nat → Option Nat

/-- Register address constant `mmSPI_SHADER_PGM_RSRC1_HS`. -/
def mmSPI_SHADER_PGM_RSRC1_HS : Nat := 0x2D0A

/-- Register address constant `mmSPI_SHADER_PGM_RSRC2_HS`. -/
def mmSPI_SHADER_PGM_RSRC2_HS : Nat := 0x2D0B

/-- Register address constant `mmSPI_SHADER_PGM_RSRC3_HS`. -/
def mmSPI_SHADER_PGM_RSRC3_HS : Nat := 0x2D08

/-- Register address constant `mmSPI_SHADER_PGM_RSRC4_HS`. -/
def mmSPI_SHADER_PGM_RSRC4_HS : Nat := 0x2D07

/-- Register address constant `Apu09_1xPlus::mmSPI_SHADER_PGM_CHKSUM_HS`. -/
def mmSPI_SHADER_PGM_CHKSUM_HS : Nat := 0x2D0C

/-- Register address constant `mmVGT_HOS_MAX_TESS_LEVEL`. -/
def mmVGT_HOS_MAX_TESS_LEVEL : Nat := 0xA286

/-- Register address constant `mmVGT_HOS_MIN_TESS_LEVEL`. -/
def mmVGT_HOS_MIN_TESS_LEVEL : Nat := 0xA287

/-- Offset constant `ConstBufTblStartReg`. -/
def ConstBufTblStartReg : Nat := 0x100

/-- Sentinel `UserDataNotMapped` for an unallocated user-data register. -/
def UserDataNotMapped : Nat := 0

/-- Field read of `CU_EN` (bits 0..15) from a packed register value. -/
def CU_EN_get (v : Nat) : Nat := v % 65536

/-- Field write of `CU_EN` (bits 0..15): the assigned value is truncated
to the field width, the remaining bits are preserved, exactly as a C++
bit-field assignment behaves. -/
def CU_EN_set (v x : Nat) : Nat := x % 65536 + v / 65536 * 65536

/-- Field read of `WAVE_LIMIT` (bits 16..21) from a packed register. -/
def WAVE_LIMIT_get (v : Nat) : Nat := v / 65536 % 64

/-- Field write of `WAVE_LIMIT` (bits 16..21), truncating to 6 bits and
preserving the other bits. -/
def WAVE_LIMIT_set (v x : Nat) : Nat :=
  v % 65536 + x % 64 * 65536 + v / 4194304 * 4194304

/-- Source helper `Get256BAddrLo`: the 256-byte-aligned address low part. -/
def Get256BAddrLo (addr : Nat) : Nat := addr / 256 % 4294967296

/-- Source helper `Get256BAddrHi`: the 256-byte-aligned address high part. -/
def Get256BAddrHi (addr : Nat) : Nat := addr / 256 / 4294967296

/-- Source helper `LowPart`: low 32 bits of a 64-bit value. -/
def LowPart (v : Nat) : Nat := v % 4294967296

/-- SH (shader-processor) register snapshot of the HS chunk: the `sh`
member of `m_regs` (packed 32-bit values). -/
structure HsShRegs where
  spiShaderPgmLoLs : Nat
  spiShaderPgmRsrc1Hs : Nat
  spiShaderPgmRsrc2Hs : Nat
  spiShaderPgmChksumHs : Nat
  userDataInternalTable : Nat
deriving DecidableEq, Repr

/-- Dynamic (override-bearing) register snapshot: the `dynamic` member
of `m_regs`. -/
structure HsDynamicRegs where
  spiShaderPgmRsrc3Hs : Nat
  spiShaderPgmRsrc4Hs : Nat
deriving DecidableEq, Repr

/-- Context register snapshot: the `context` member of `m_regs`; field
order matches the source struct (max level first, then min level). -/
structure HsContextRegs where
  vgtHosMaxTessLevel : Nat
  vgtHosMinTessLevel : Nat
deriving DecidableEq, Repr

/-- Full register snapshot `m_regs` of the HS chunk. -/
structure HsRegs where
  sh : HsShRegs
  dynamic : HsDynamicRegs
  context : HsContextRegs
deriving DecidableEq, Repr

/-- Stage descriptor `m_stageInfo`. -/
structure StageInfo where
  stageId : HardwareStage
  codeLength : Nat
  disassemblyLength : Nat
deriving DecidableEq, Repr

/-- State of a `PipelineChunkHs` instance: the register snapshot, the
performance-data descriptor reference and the stage descriptor. The
device reference `m_device` is passed to each operation instead of
being stored, because it is never mutated. -/
structure PipelineChunkHs where
  regs : HsRegs
  pHsPerfDataInfo : PerfDataInfo
  stageInfo : StageInfo
deriving DecidableEq, Repr

/-- Constructor `PipelineChunkHs::PipelineChunkHs`: zero-initializes
`m_regs` and `m_stageInfo`, then sets the stage id to `Hs`. -/
def PipelineChunkHs.init (pPerfDataInfo : PerfDataInfo) : PipelineChunkHs :=
  { regs :=
      { sh :=
          { spiShaderPgmLoLs := 0
            spiShaderPgmRsrc1Hs := 0
            spiShaderPgmRsrc2Hs := 0
            spiShaderPgmChksumHs := 0
            userDataInternalTable := 0 }
        dynamic :=
          { spiShaderPgmRsrc3Hs := 0
            spiShaderPgmRsrc4Hs := 0 }
        context :=
          { vgtHosMaxTessLevel := 0
            vgtHosMinTessLevel := 0 } }
    pHsPerfDataInfo := pPerfDataInfo
    stageInfo :=
      { stageId := HardwareStage.Hs
        codeLength := 0
        disassemblyLength := 0 } }

/-- Modelled from the spec: the `PAL_ASSERT` on entry-point alignment in
`LateInit` (the `PAL_ASSERT` macro definition, palAssert.h, is not part
of the excerpted sources). Per the spec, a misaligned entry point is a
hard, non-recoverable failure even outside debug builds. -/
inductive LateInitError where
  | misalignedEntryPoint
deriving DecidableEq, Repr

/-- Tail of `PipelineChunkHs::LateInit` after the entry-point symbol
block (lines 78-115 of the source): internal-table symbol, disassembly
symbol, RSRC1/RSRC2/RSRC3 register fetch, preferred CU mask, gfx10+
high CU mask, checksum register when SPP is supported, tessellation
context registers, and the hash-accumulator update. The hasher is
modelled as the list of context-register records fed to it. -/
def lateInitTail (dev : Device)
    (abiReader : PipelineSymbolType → Option SymbolTableEntry)
    (registers : RegisterVector)
    (pUploader : PipelineSymbolType → Option GpuSymbol)
    (pHasher : List HsContextRegs)
    (c0 : PipelineChunkHs) : PipelineChunkHs × List HsContextRegs :=
  let c1 := match pUploader PipelineSymbolType.HsShdrIntrlTblPtr with
    | some symbol =>
        { c0 with regs.sh.userDataInternalTable := LowPart symbol.gpuVirtAddr }
    | none => c0
  let c2 := match abiReader PipelineSymbolType.HsDisassembly with
    | some pElfSymbol =>
        { c1 with stageInfo.disassemblyLength := pElfSymbol.st_size }
    | none => c1
  let c3 :=
    { c2 with
        regs.sh.spiShaderPgmRsrc1Hs := registers.At mmSPI_SHADER_PGM_RSRC1_HS
        regs.sh.spiShaderPgmRsrc2Hs := registers.At mmSPI_SHADER_PGM_RSRC2_HS }
  let c4 := match registers.HasEntry mmSPI_SHADER_PGM_RSRC3_HS with
    | some v => { c3 with regs.dynamic.spiShaderPgmRsrc3Hs := v }
    | none => c3
  let c5 :=
    { c4 with
        regs.dynamic.spiShaderPgmRsrc3Hs :=
          CU_EN_set c4.regs.dynamic.spiShaderPgmRsrc3Hs dev.cuEnableMask }
  let c6 :=
    if IsGfx10Plus dev.chipProps.gfxLevel then
      { c5 with
          regs.dynamic.spiShaderPgmRsrc4Hs :=
            CU_EN_set c5.regs.dynamic.spiShaderPgmRsrc4Hs dev.cuEnableMaskHi }
    else c5
  let c7 :=
    if dev.chipProps.supportSpp then
      match registers.HasEntry mmSPI_SHADER_PGM_CHKSUM_HS with
      | some v => { c6 with regs.sh.spiShaderPgmChksumHs := v }
      | none => c6
    else c6
  let c8 :=
    { c7 with
        regs.context.vgtHosMinTessLevel := registers.At mmVGT_HOS_MIN_TESS_LEVEL
        regs.context.vgtHosMaxTessLevel := registers.At mmVGT_HOS_MAX_TESS_LEVEL }
  (c8, pHasher ++ [c8.regs.context])

/-- `PipelineChunkHs::LateInit`: resolves the HS main entry point; when
found, records the code length and requires 256-byte alignment of the
resolved address (a hard failure on violation, see `LateInitError`)
before recording the 256-byte program address; then runs the remainder
of late initialization (`lateInitTail`). -/
def PipelineChunkHs.LateInit (dev : Device)
    (abiReader : PipelineSymbolType → Option SymbolTableEntry)
    (registers : RegisterVector)
    (pUploader : PipelineSymbolType → Option GpuSymbol)
    (pHasher : List HsContextRegs)
    (c : PipelineChunkHs) :
    Except LateInitError (PipelineChunkHs × List HsContextRegs) :=
  match pUploader PipelineSymbolType.HsMainEntry with
  | some symbol =>
      let c1 := { c with stageInfo.codeLength := symbol.size }
      if symbol.gpuVirtAddr % 256 = 0 then
        Except.ok (lateInitTail dev abiReader registers pUploader pHasher
          { c1 with regs.sh.spiShaderPgmLoLs := Get256BAddrLo symbol.gpuVirtAddr })
      else
        Except.error LateInitError.misalignedEntryPoint
  | none => Except.ok (lateInitTail dev abiReader registers pUploader pHasher c)

/-- Command-stream opcodes this chunk can append (the `CmdStream`
writer primitives it calls). -/
inductive Cmd where
  | SetOneShReg (reg value : Nat)
  | SetSeqShRegs (startReg endReg : Nat) (values : List Nat)
  | SetOneShRegIndex (reg value : Nat)
  | SetSeqContextRegs (startReg endReg : Nat) (values : List Nat)
deriving DecidableEq, Repr

/-- Override application of `WriteShCommands` (lines 154-174): the local
scratch copy `dynamic` of the stored dynamic registers after the
wave-limit override / GFX9 zero-wave-limit defect compensation and the
CU-enable-mask override. The `PAL_AMDGPU_BUILD` branch is compiled in
(see the module conventions). -/
def hsDynamicEmitted (dev : Device) (c : PipelineChunkHs)
    (hsStageInfo : DynamicStageInfo) : HsDynamicRegs :=
  let dynamic := c.regs.dynamic
  let dynamic :=
    if 0 < hsStageInfo.wavesPerSh then
      { dynamic with
          spiShaderPgmRsrc3Hs :=
            WAVE_LIMIT_set dynamic.spiShaderPgmRsrc3Hs hsStageInfo.wavesPerSh }
    else if IsGfx9 dev.chipProps.gfxLevel
        ∧ WAVE_LIMIT_get dynamic.spiShaderPgmRsrc3Hs = 0 then
      { dynamic with
          spiShaderPgmRsrc3Hs :=
            WAVE_LIMIT_set dynamic.spiShaderPgmRsrc3Hs dev.maxWavesPerSh }
    else dynamic
  if hsStageInfo.cuEnableMask ≠ 0 then
    { spiShaderPgmRsrc3Hs :=
        CU_EN_set dynamic.spiShaderPgmRsrc3Hs
          (CU_EN_get dynamic.spiShaderPgmRsrc3Hs &&& hsStageInfo.cuEnableMask)
      spiShaderPgmRsrc4Hs :=
        CU_EN_set dynamic.spiShaderPgmRsrc4Hs
          (dev.adjustCuEnHi (CU_EN_get dynamic.spiShaderPgmRsrc4Hs)
            hsStageInfo.cuEnableMask) }
  else dynamic

/-- `PipelineChunkHs::WriteShCommands`: appends the SH register writes to
the command space in source order. The method is `const`; the returned
chunk is the receiver after execution (the body only reads the
snapshot, patching a local scratch copy of the dynamic registers). -/
def PipelineChunkHs.WriteShCommands (dev : Device) (c : PipelineChunkHs)
    (pCmdSpace : List Cmd) (hsStageInfo : DynamicStageInfo) :
    PipelineChunkHs × List Cmd :=
  let pCmdSpace := pCmdSpace ++
    [Cmd.SetOneShReg dev.mmSpiShaderPgmLoLs c.regs.sh.spiShaderPgmLoLs]
  let pCmdSpace := pCmdSpace ++
    [Cmd.SetSeqShRegs mmSPI_SHADER_PGM_RSRC1_HS mmSPI_SHADER_PGM_RSRC2_HS
      [c.regs.sh.spiShaderPgmRsrc1Hs, c.regs.sh.spiShaderPgmRsrc2Hs]]
  let pCmdSpace := pCmdSpace ++
    [Cmd.SetOneShReg (dev.mmUserDataStartHsShaderStage + ConstBufTblStartReg)
      c.regs.sh.userDataInternalTable]
  let pCmdSpace :=
    if dev.chipProps.supportSpp then
      pCmdSpace ++
        [Cmd.SetOneShReg mmSPI_SHADER_PGM_CHKSUM_HS c.regs.sh.spiShaderPgmChksumHs]
    else pCmdSpace
  let dynamic := hsDynamicEmitted dev c hsStageInfo
  let pCmdSpace := pCmdSpace ++
    [Cmd.SetOneShRegIndex mmSPI_SHADER_PGM_RSRC3_HS dynamic.spiShaderPgmRsrc3Hs]
  let pCmdSpace :=
    if IsGfx10Plus dev.chipProps.gfxLevel then
      pCmdSpace ++
        [Cmd.SetOneShRegIndex mmSPI_SHADER_PGM_RSRC4_HS dynamic.spiShaderPgmRsrc4Hs]
    else pCmdSpace
  let pCmdSpace :=
    if c.pHsPerfDataInfo.regOffset ≠ UserDataNotMapped then
      pCmdSpace ++
        [Cmd.SetOneShReg c.pHsPerfDataInfo.regOffset c.pHsPerfDataInfo.gpuVirtAddr]
    else pCmdSpace
  (c, pCmdSpace)

/-- `PipelineChunkHs::WriteContextCommands`: emits the two tessellation
context registers as one sequential write. -/
def PipelineChunkHs.WriteContextCommands (c : PipelineChunkHs)
    (pCmdSpace : List Cmd) : List Cmd :=
  pCmdSpace ++
    [Cmd.SetSeqContextRegs mmVGT_HOS_MAX_TESS_LEVEL mmVGT_HOS_MIN_TESS_LEVEL
      [c.regs.context.vgtHosMaxTessLevel, c.regs.context.vgtHosMinTessLevel]]

/-- First value written to a register through the indexed SH-register
opcode in a command list (used to observe the emitted dynamic
registers). -/
def findDynRegWrite (reg : Nat) (cmds : List Cmd) : Option Nat :=
  cmds.findSome? fun cmd =>
    match cmd with
    | Cmd.SetOneShRegIndex r v => if r = reg then some v else none
    | _ => none

/-- Whether a single command writes the given register address,
including a sequential write covering it. -/
def cmdWritesReg (reg : Nat) : Cmd → Bool
  | Cmd.SetOneShReg r _ => r = reg
  | Cmd.SetSeqShRegs s e _ => s ≤ reg ∧ reg ≤ e
  | Cmd.SetOneShRegIndex r _ => r = reg
  | Cmd.SetSeqContextRegs s e _ => s ≤ reg ∧ reg ≤ e

end Pal

namespace Util.Abi

/-- Decode-time error taxonomy of the metadata codec. -/
inductive DecodeError where
  | malformedStructure
  | truncated
  | typeMismatch
  | versionUnsupported
deriving DecidableEq, Repr

/-- Presence bits of the decoded pipeline fields tracked by this model
(the `hasEntry` bitset of `PipelineMetadata`). -/
structure PipelineHasEntry where
  registers : Bool
  userDataLimit : Bool
  spillThreshold : Bool
deriving DecidableEq, Repr

/-- Decoded per-pipeline metadata, restricted to the scalar fields this
model tracks (`registers` offset, user-data limit, spill threshold)
together with their presence bits; mirrors `Abi::PipelineMetadata`. -/
structure PipelineMetadata where
  registers : Nat
  userDataLimit : Nat
  spillThreshold : Nat
  hasEntry : PipelineHasEntry
deriving DecidableEq, Repr

/-- Decoded root metadata (`Abi::PalCodeObjectMetadata`): the version
pair plus one pipeline record and the version presence bit. -/
structure PalCodeObjectMetadata where
  version : Nat × Nat
  pipeline : PipelineMetadata
  hasEntryVersion : Bool
deriving DecidableEq, Repr

/-- Modelled from the spec: the wire blob seen by the decoder. The spec
describes a root structured map with two named top-level entries, a
version pair and a pipelines collection whose fields are keyed by fixed
dotted string names; either entry can be absent in a malformed blob.
Unknown root keys carry no information for this decoder and are elided
from the model. -/
structure PalMetadataBlob where
  version : Option (Nat × Nat)
  pipelines : Option (List (String × Nat))
deriving DecidableEq, Repr

/-- Pipeline-field keys known to this decoder model (a subset of
`PipelineMetadataKey`). -/
def knownPipelineKeys : List String :=
  [".registers", ".user_data_limit", ".spill_threshold"]

/-- Modelled from the spec: decoding one pipeline field into the
metadata record; a known key sets the field and its presence bit, an
unknown key is skipped without error (forward compatibility). -/
def decodePipelineField (m : PipelineMetadata) (kv : String × Nat) :
    PipelineMetadata :=
  if kv.1 = ".registers" then
    { m with registers := kv.2, hasEntry.registers := true }
  else if kv.1 = ".user_data_limit" then
    { m with userDataLimit := kv.2, hasEntry.userDataLimit := true }
  else if kv.1 = ".spill_threshold" then
    { m with spillThreshold := kv.2, hasEntry.spillThreshold := true }
  else m

/-- Default-valued pipeline metadata: all fields zero, all presence bits
clear. -/
def pipelineDefault : PipelineMetadata :=
  { registers := 0
    userDataLimit := 0
    spillThreshold := 0
    hasEntry := { registers := false, userDataLimit := false, spillThreshold := false } }

/-- Modelled from the spec: folding the pipeline-field list in order. -/
def decodePipelineFields (fields : List (String × Nat)) : PipelineMetadata :=
  fields.foldl decodePipelineField pipelineDefault

namespace Metadata

/-- Modelled from the spec: `Metadata::DeserializePalCodeObjectMetadata`
(its implementation is not part of the excerpted sources; only its
declaration is). Per the spec: a missing required root entry is
`MalformedStructure`; a blob whose major version exceeds the supported
major version of the decoder `supportedMajor` is rejected with
`VersionUnsupported`; otherwise known pipeline fields are decoded, with
their presence bits set, and unknown fields are skipped without error. -/
def DeserializePalCodeObjectMetadata (supportedMajor : Nat)
    (blob : PalMetadataBlob) : Except DecodeError PalCodeObjectMetadata :=
  match blob.version with
  | none => Except.error DecodeError.malformedStructure
  | some (major, minor) =>
      if supportedMajor < major then
        Except.error DecodeError.versionUnsupported
      else
        match blob.pipelines with
        | none => Except.error DecodeError.malformedStructure
        | some fields =>
            Except.ok
              { version := (major, minor)
                pipeline := decodePipelineFields fields
                hasEntryVersion := true }

/-- The legacy deserialize overload taking a registers-offset
out-parameter (g_palPipelineAbiMetadata.h lines 338-350, present when
`PAL_CLIENT_INTERFACE_MAJOR_VERSION < 580`). The out-pointer is
modelled as `Option Nat` (`none` is a null pointer, `some prev` points
at the value `prev`); the second component of the result is the
pointee after the call. -/
def DeserializePalCodeObjectMetadataLegacy (supportedMajor : Nat)
    (blob : PalMetadataBlob) (pRegistersOffset : Option Nat) :
    Except DecodeError PalCodeObjectMetadata × Option Nat :=
  let result := DeserializePalCodeObjectMetadata supportedMajor blob
  match result, pRegistersOffset with
  | Except.ok pMetadata, some _ =>
      (Except.ok pMetadata,
        some (if pMetadata.pipeline.hasEntry.registers then
                pMetadata.pipeline.registers
              else 0xffffffff))
  | r, p => (r, p)

end Metadata

end Util.Abi

namespace Pal

/-- Concrete device used by witness instantiations (gfx9, no SPP). -/
def devW2 : Device :=
  { chipProps := { gfxLevel := GfxIpLevel.gfx9, supportSpp := false }
    cuEnableMask := 0xFFFF
    cuEnableMaskHi := 0
    maxWavesPerSh := 16
    adjustCuEnHi := fun a _ => a
    mmUserDataStartHsShaderStage := 0x2C00
    mmSpiShaderPgmLoLs := 0x2D04 }

/-- Concrete empty register lookup used by witness instantiations. -/
def regsW2 : RegisterVector := { At := fun _ => 0, HasEntry := fun _ => none }

/-- Concrete symbol resolver returning a misaligned HS entry point. -/
def uplW2 : PipelineSymbolType → Option GpuSymbol := fun t =>
  match t with
  | PipelineSymbolType.HsMainEntry => some { gpuVirtAddr := 0x101, size := 64 }
  | _ => none

/-- Concrete device used by witness instantiations (gfx10, SPP). -/
def devW4 : Device :=
  { chipProps := { gfxLevel := GfxIpLevel.gfx10_1, supportSpp := true }
    cuEnableMask := 0xFFFF
    cuEnableMaskHi := 0xF
    maxWavesPerSh := 16
    adjustCuEnHi := fun a _ => a
    mmUserDataStartHsShaderStage := 0x2C00
    mmSpiShaderPgmLoLs := 0x2D04 }

/-- Concrete register lookup with distinct per-register values. -/
def regsW4 : RegisterVector := { At := fun r => r + 1, HasEntry := fun _ => none }

/-- Erases the value of every indexed SH-register write (the opcode kind
used only for the override-bearing dynamic registers), keeping all other
commands intact; used to state that two emissions differ only in the
override-bearing register values. -/
def scrubDynamicValues : Cmd → Cmd
  | Cmd.SetOneShRegIndex reg _ => Cmd.SetOneShRegIndex reg 0
  | cmd => cmd

end Pal

namespace Util.Abi

/-- Concrete blob whose major version exceeds a supported major of 2. -/
def blobW7 : PalMetadataBlob := { version := some (3, 0), pipelines := some [] }

/-- Concrete well-formed blob carrying a registers offset of 7. -/
def blobW9 : PalMetadataBlob :=
  { version := some (1, 0), pipelines := some [(".registers", 7)] }

/-- The decoded metadata of `blobW9`. -/
def metaW9 : PalCodeObjectMetadata :=
  { version := (1, 0)
    pipeline :=
      { registers := 7
        userDataLimit := 0
        spillThreshold := 0
        hasEntry := { registers := true, userDataLimit := false, spillThreshold := false } }
    hasEntryVersion := true }

end Util.Abi


namespace Pal

/-- Reading `CU_EN` after writing it yields the truncated written value. -/
theorem CU_EN_get_CU_EN_set (v x : Nat) : CU_EN_get (CU_EN_set v x) = x % 65536 := by
  simp only [CU_EN_get, CU_EN_set]
  omega

/-- Writing `CU_EN` preserves the `WAVE_LIMIT` field. -/
theorem WAVE_LIMIT_get_CU_EN_set (v x : Nat) :
    WAVE_LIMIT_get (CU_EN_set v x) = WAVE_LIMIT_get v := by
  simp only [WAVE_LIMIT_get, CU_EN_set]
  omega

/-- Writing `WAVE_LIMIT` preserves the `CU_EN` field. -/
theorem CU_EN_get_WAVE_LIMIT_set (v x : Nat) :
    CU_EN_get (WAVE_LIMIT_set v x) = CU_EN_get v := by
  simp only [CU_EN_get, WAVE_LIMIT_set]
  omega

/-- Reading `WAVE_LIMIT` after writing it yields the truncated value. -/
theorem WAVE_LIMIT_get_WAVE_LIMIT_set (v x : Nat) :
    WAVE_LIMIT_get (WAVE_LIMIT_set v x) = x % 64 := by
  simp only [WAVE_LIMIT_get, WAVE_LIMIT_set]
  omega

/-- The hash-accumulator output of `lateInitTail` is the input
accumulator extended by exactly the decoded context-register record. -/
theorem lateInitTail_hasher (dev : Device)
    (abiReader : PipelineSymbolType → Option SymbolTableEntry)
    (registers : RegisterVector)
    (pUploader : PipelineSymbolType → Option GpuSymbol)
    (pHasher : List HsContextRegs) (c0 : PipelineChunkHs) :
    (lateInitTail dev abiReader registers pUploader pHasher c0).2 =
      pHasher ++
        [{ vgtHosMaxTessLevel := registers.At mmVGT_HOS_MAX_TESS_LEVEL
           vgtHosMinTessLevel := registers.At mmVGT_HOS_MIN_TESS_LEVEL }] := by
  cases h1 : pUploader PipelineSymbolType.HsShdrIntrlTblPtr <;>
    cases h2 : abiReader PipelineSymbolType.HsDisassembly <;>
    cases h3 : registers.HasEntry mmSPI_SHADER_PGM_RSRC3_HS <;>
    cases h4 : IsGfx10Plus dev.chipProps.gfxLevel <;>
    cases h5 : dev.chipProps.supportSpp <;>
    cases h6 : registers.HasEntry mmSPI_SHADER_PGM_CHKSUM_HS <;>
    simp [lateInitTail, h1, h2, h3, h4, h5, h6]

/-- `lateInitTail` never touches the recorded code length. -/
theorem lateInitTail_codeLength (dev : Device)
    (abiReader : PipelineSymbolType → Option SymbolTableEntry)
    (registers : RegisterVector)
    (pUploader : PipelineSymbolType → Option GpuSymbol)
    (pHasher : List HsContextRegs) (c0 : PipelineChunkHs) :
    (lateInitTail dev abiReader registers pUploader pHasher c0).1.stageInfo.codeLength =
      c0.stageInfo.codeLength := by
  cases h1 : pUploader PipelineSymbolType.HsShdrIntrlTblPtr <;>
    cases h2 : abiReader PipelineSymbolType.HsDisassembly <;>
    cases h3 : registers.HasEntry mmSPI_SHADER_PGM_RSRC3_HS <;>
    cases h4 : IsGfx10Plus dev.chipProps.gfxLevel <;>
    cases h5 : dev.chipProps.supportSpp <;>
    cases h6 : registers.HasEntry mmSPI_SHADER_PGM_CHKSUM_HS <;>
    simp [lateInitTail, h1, h2, h3, h4, h5, h6]

/-- `lateInitTail` never touches the program-address register. -/
theorem lateInitTail_pgmLo (dev : Device)
    (abiReader : PipelineSymbolType → Option SymbolTableEntry)
    (registers : RegisterVector)
    (pUploader : PipelineSymbolType → Option GpuSymbol)
    (pHasher : List HsContextRegs) (c0 : PipelineChunkHs) :
    (lateInitTail dev abiReader registers pUploader pHasher c0).1.regs.sh.spiShaderPgmLoLs =
      c0.regs.sh.spiShaderPgmLoLs := by
  cases h1 : pUploader PipelineSymbolType.HsShdrIntrlTblPtr <;>
    cases h2 : abiReader PipelineSymbolType.HsDisassembly <;>
    cases h3 : registers.HasEntry mmSPI_SHADER_PGM_RSRC3_HS <;>
    cases h4 : IsGfx10Plus dev.chipProps.gfxLevel <;>
    cases h5 : dev.chipProps.supportSpp <;>
    cases h6 : registers.HasEntry mmSPI_SHADER_PGM_CHKSUM_HS <;>
    simp [lateInitTail, h1, h2, h3, h4, h5, h6]

/-- The checksum register snapshot after `lateInitTail`: populated from
the register lookup exactly when the device supports SPP, untouched
otherwise. -/
theorem lateInitTail_chksum (dev : Device)
    (abiReader : PipelineSymbolType → Option SymbolTableEntry)
    (registers : RegisterVector)
    (pUploader : PipelineSymbolType → Option GpuSymbol)
    (pHasher : List HsContextRegs) (c0 : PipelineChunkHs) :
    (lateInitTail dev abiReader registers pUploader pHasher c0).1.regs.sh.spiShaderPgmChksumHs =
      (if dev.chipProps.supportSpp then
        (registers.HasEntry mmSPI_SHADER_PGM_CHKSUM_HS).getD c0.regs.sh.spiShaderPgmChksumHs
       else c0.regs.sh.spiShaderPgmChksumHs) := by
  cases h1 : pUploader PipelineSymbolType.HsShdrIntrlTblPtr <;>
    cases h2 : abiReader PipelineSymbolType.HsDisassembly <;>
    cases h3 : registers.HasEntry mmSPI_SHADER_PGM_RSRC3_HS <;>
    cases h4 : IsGfx10Plus dev.chipProps.gfxLevel <;>
    cases h5 : dev.chipProps.supportSpp <;>
    cases h6 : registers.HasEntry mmSPI_SHADER_PGM_CHKSUM_HS <;>
    simp [lateInitTail, h1, h2, h3, h4, h5, h6]

/-- `lateInitTail` never touches the performance-data descriptor. -/
theorem lateInitTail_perfInfo (dev : Device)
    (abiReader : PipelineSymbolType → Option SymbolTableEntry)
    (registers : RegisterVector)
    (pUploader : PipelineSymbolType → Option GpuSymbol)
    (pHasher : List HsContextRegs) (c0 : PipelineChunkHs) :
    (lateInitTail dev abiReader registers pUploader pHasher c0).1.pHsPerfDataInfo =
      c0.pHsPerfDataInfo := by
  cases h1 : pUploader PipelineSymbolType.HsShdrIntrlTblPtr <;>
    cases h2 : abiReader PipelineSymbolType.HsDisassembly <;>
    cases h3 : registers.HasEntry mmSPI_SHADER_PGM_RSRC3_HS <;>
    cases h4 : IsGfx10Plus dev.chipProps.gfxLevel <;>
    cases h5 : dev.chipProps.supportSpp <;>
    cases h6 : registers.HasEntry mmSPI_SHADER_PGM_CHKSUM_HS <;>
    simp [lateInitTail, h1, h2, h3, h4, h5, h6]

/-- Claim C2: whenever the entry-point symbol is found and the resolved
address is not aligned to the 256-byte hardware boundary, `LateInit`
fails hard with the misaligned-entry-point defect and never returns a
snapshot (so no misaligned program address is ever recorded). -/
theorem lateInit_misaligned_entry_hard_failure (dev : Device)
    (abiReader : PipelineSymbolType → Option SymbolTableEntry)
    (registers : RegisterVector)
    (pUploader : PipelineSymbolType → Option GpuSymbol)
    (pHasher : List HsContextRegs) (c : PipelineChunkHs) (symbol : GpuSymbol)
    (hFound : pUploader PipelineSymbolType.HsMainEntry = some symbol)
    (hMisaligned : symbol.gpuVirtAddr % 256 ≠ 0) :
    PipelineChunkHs.LateInit dev abiReader registers pUploader pHasher c =
      Except.error LateInitError.misalignedEntryPoint := by
  simp [PipelineChunkHs.LateInit, hFound, hMisaligned]

/-- Witness for claim C2 at a concrete misaligned address 0x101. -/
theorem lateInit_misaligned_entry_hard_failure_witness :
    (0x101 : Nat) % 256 ≠ 0 ∧
      PipelineChunkHs.LateInit devW2 (fun _ => none) regsW2 uplW2 []
          (PipelineChunkHs.init { regOffset := 0, gpuVirtAddr := 0 }) =
        Except.error LateInitError.misalignedEntryPoint :=
  ⟨by decide,
   lateInit_misaligned_entry_hard_failure devW2 (fun _ => none) regsW2 uplW2 []
     (PipelineChunkHs.init { regOffset := 0, gpuVirtAddr := 0 })
     { gpuVirtAddr := 0x101, size := 64 } rfl (by decide)⟩

/-- Claim C4: when the symbol resolver reports not-found for the stage
main entry point, `LateInit` on a freshly constructed chunk raises no
error, the recorded code length stays 0 and the program-address
register stays at its zero-initialized default. -/
theorem lateInit_entry_not_found_leaves_defaults (dev : Device)
    (abiReader : PipelineSymbolType → Option SymbolTableEntry)
    (registers : RegisterVector)
    (pUploader : PipelineSymbolType → Option GpuSymbol)
    (pHasher : List HsContextRegs) (pPerfDataInfo : PerfDataInfo)
    (hNotFound : pUploader PipelineSymbolType.HsMainEntry = none) :
    (PipelineChunkHs.LateInit dev abiReader registers pUploader pHasher
        (PipelineChunkHs.init pPerfDataInfo)).isOk = true ∧
    (PipelineChunkHs.LateInit dev abiReader registers pUploader pHasher
        (PipelineChunkHs.init pPerfDataInfo)).map
        (fun r => (r.1.stageInfo.codeLength, r.1.regs.sh.spiShaderPgmLoLs)) =
      (PipelineChunkHs.LateInit dev abiReader registers pUploader pHasher
        (PipelineChunkHs.init pPerfDataInfo)).map (fun _ => (0, 0)) := by
  constructor
  · simp [PipelineChunkHs.LateInit, hNotFound, Except.isOk, Except.toBool]
  · simp only [PipelineChunkHs.LateInit, hNotFound, Except.map]
    rw [lateInitTail_codeLength, lateInitTail_pgmLo]
    rfl

/-- Witness for claim C4 with a resolver that finds no symbol at all. -/
theorem lateInit_entry_not_found_leaves_defaults_witness :
    (PipelineChunkHs.LateInit devW4 (fun _ => none) regsW4 (fun _ => none) []
        (PipelineChunkHs.init { regOffset := 0, gpuVirtAddr := 0 })).isOk = true :=
  (lateInit_entry_not_found_leaves_defaults devW4 (fun _ => none) regsW4
    (fun _ => none) [] { regOffset := 0, gpuVirtAddr := 0 } rfl).1

/-- Claim C5: whenever `LateInit` completes, its hash-accumulator
contribution is exactly one record, determined by the register-lookup
contents at the two tessellation-level registers alone — independent of
the prior accumulator state, the chunk state and every other input. -/
theorem lateInit_hash_contribution_deterministic (dev : Device)
    (abiReader : PipelineSymbolType → Option SymbolTableEntry)
    (registers : RegisterVector)
    (pUploader : PipelineSymbolType → Option GpuSymbol)
    (pHasher : List HsContextRegs) (c : PipelineChunkHs) :
    (PipelineChunkHs.LateInit dev abiReader registers pUploader pHasher c).map
        (fun r => r.2) =
      (PipelineChunkHs.LateInit dev abiReader registers pUploader pHasher c).map
        (fun _ => pHasher ++
          [{ vgtHosMaxTessLevel := registers.At mmVGT_HOS_MAX_TESS_LEVEL
             vgtHosMinTessLevel := registers.At mmVGT_HOS_MIN_TESS_LEVEL }]) := by
  cases hMain : pUploader PipelineSymbolType.HsMainEntry with
  | some symbol =>
      by_cases hAligned : symbol.gpuVirtAddr % 256 = 0
      · simp only [PipelineChunkHs.LateInit, hMain, if_pos hAligned, Except.map]
        rw [lateInitTail_hasher]
      · simp [PipelineChunkHs.LateInit, hMain, hAligned, Except.map]
  | none =>
      simp only [PipelineChunkHs.LateInit, hMain, Except.map]
      rw [lateInitTail_hasher]

end Pal

namespace Pal

/-- Structural decomposition of the `WriteShCommands` output: the input
command space followed by the fixed emission sequence. -/
theorem writeShCommands_decomp (dev : Device) (c : PipelineChunkHs)
    (pCmdSpace : List Cmd) (hsStageInfo : DynamicStageInfo) :
    (PipelineChunkHs.WriteShCommands dev c pCmdSpace hsStageInfo).2 =
      pCmdSpace ++
        [Cmd.SetOneShReg dev.mmSpiShaderPgmLoLs c.regs.sh.spiShaderPgmLoLs,
         Cmd.SetSeqShRegs mmSPI_SHADER_PGM_RSRC1_HS mmSPI_SHADER_PGM_RSRC2_HS
           [c.regs.sh.spiShaderPgmRsrc1Hs, c.regs.sh.spiShaderPgmRsrc2Hs],
         Cmd.SetOneShReg (dev.mmUserDataStartHsShaderStage + ConstBufTblStartReg)
           c.regs.sh.userDataInternalTable] ++
        (if dev.chipProps.supportSpp then
          [Cmd.SetOneShReg mmSPI_SHADER_PGM_CHKSUM_HS c.regs.sh.spiShaderPgmChksumHs]
         else []) ++
        [Cmd.SetOneShRegIndex mmSPI_SHADER_PGM_RSRC3_HS
          (hsDynamicEmitted dev c hsStageInfo).spiShaderPgmRsrc3Hs] ++
        (if IsGfx10Plus dev.chipProps.gfxLevel then
          [Cmd.SetOneShRegIndex mmSPI_SHADER_PGM_RSRC4_HS
            (hsDynamicEmitted dev c hsStageInfo).spiShaderPgmRsrc4Hs]
         else []) ++
        (if c.pHsPerfDataInfo.regOffset ≠ UserDataNotMapped then
          [Cmd.SetOneShReg c.pHsPerfDataInfo.regOffset c.pHsPerfDataInfo.gpuVirtAddr]
         else []) := by
  cases hSpp : dev.chipProps.supportSpp <;>
    cases hGfx : IsGfx10Plus dev.chipProps.gfxLevel <;>
    by_cases hPerf : c.pHsPerfDataInfo.regOffset = UserDataNotMapped <;>
    simp [PipelineChunkHs.WriteShCommands, hSpp, hGfx, hPerf]

/-- The value the emission carries for `SPI_SHADER_PGM_RSRC3_HS` is the
override-patched scratch copy of the stored dynamic register. -/
theorem findDynRegWrite_writeShCommands (dev : Device) (c : PipelineChunkHs)
    (hsStageInfo : DynamicStageInfo) :
    findDynRegWrite mmSPI_SHADER_PGM_RSRC3_HS
        (PipelineChunkHs.WriteShCommands dev c [] hsStageInfo).2 =
      some (hsDynamicEmitted dev c hsStageInfo).spiShaderPgmRsrc3Hs := by
  rw [writeShCommands_decomp]
  cases hSpp : dev.chipProps.supportSpp <;>
    simp [findDynRegWrite, mmSPI_SHADER_PGM_RSRC3_HS]

/-- With no wave-limit override, the emitted `WAVE_LIMIT` field of a
snapshot whose field is 0: the architectural maximum on GFX9, still 0
on all other generations. -/
theorem hsDynamicEmitted_waveLimit_zero (dev : Device) (c : PipelineChunkHs)
    (hsStageInfo : DynamicStageInfo)
    (hOverride : hsStageInfo.wavesPerSh = 0)
    (hSnap : WAVE_LIMIT_get c.regs.dynamic.spiShaderPgmRsrc3Hs = 0)
    (hMaxFits : dev.maxWavesPerSh < 64) :
    WAVE_LIMIT_get (hsDynamicEmitted dev c hsStageInfo).spiShaderPgmRsrc3Hs =
      (if IsGfx9 dev.chipProps.gfxLevel then dev.maxWavesPerSh else 0) := by
  cases hG : IsGfx9 dev.chipProps.gfxLevel <;>
    by_cases hMask : hsStageInfo.cuEnableMask = 0 <;>
    simp [hsDynamicEmitted, hOverride, hSnap, hG, hMask,
      WAVE_LIMIT_get_WAVE_LIMIT_set, WAVE_LIMIT_get_CU_EN_set,
      Nat.mod_eq_of_lt hMaxFits]

/-- The emitted `CU_EN` field of `SPI_SHADER_PGM_RSRC3_HS`: the snapshot
field for a zero override mask, the bitwise AND with the mask
otherwise. -/
theorem hsDynamicEmitted_cuEn (dev : Device) (c : PipelineChunkHs)
    (hsStageInfo : DynamicStageInfo) :
    CU_EN_get (hsDynamicEmitted dev c hsStageInfo).spiShaderPgmRsrc3Hs =
      (if hsStageInfo.cuEnableMask = 0 then
        CU_EN_get c.regs.dynamic.spiShaderPgmRsrc3Hs
       else CU_EN_get c.regs.dynamic.spiShaderPgmRsrc3Hs &&& hsStageInfo.cuEnableMask) := by
  have hlt : ∀ a m : Nat, CU_EN_get a &&& m < 65536 :=
    fun a m => lt_of_le_of_lt Nat.and_le_left (Nat.mod_lt _ (by norm_num))
  by_cases hWp : 0 < hsStageInfo.wavesPerSh <;>
    by_cases hG : (IsGfx9 dev.chipProps.gfxLevel : Prop)
        ∧ WAVE_LIMIT_get c.regs.dynamic.spiShaderPgmRsrc3Hs = 0 <;>
    by_cases hMask : hsStageInfo.cuEnableMask = 0 <;>
    simp [hsDynamicEmitted, hWp, hG, hMask, CU_EN_get_CU_EN_set,
      CU_EN_get_WAVE_LIMIT_set, Nat.mod_eq_of_lt (hlt _ _)]

/-- Bitwise fact: restricting a mask by AND never sets a bit the base
value had clear. -/
theorem and_mask_and_self (a m : Nat) : (a &&& m) &&& a = a &&& m := by
  apply Nat.eq_of_testBit_eq
  intro i
  simp [Nat.testBit_and]
  tauto

/-- Claim C6: `WriteShCommands` appends its register-set opcodes in one
fixed order: the program-address register, then the resource-descriptor
registers (the RSRC1/RSRC2 pair and the user-data constant-buffer table
pointer), then the chip-checksum register when the device supports it,
then the dynamic override-bearing registers, then the performance-data
pointer register when one was allocated. -/
theorem writeShCommands_fixed_emission_order (dev : Device) (c : PipelineChunkHs)
    (pCmdSpace : List Cmd) (hsStageInfo : DynamicStageInfo) :
    (PipelineChunkHs.WriteShCommands dev c pCmdSpace hsStageInfo).2 =
      pCmdSpace ++
        [Cmd.SetOneShReg dev.mmSpiShaderPgmLoLs c.regs.sh.spiShaderPgmLoLs,
         Cmd.SetSeqShRegs mmSPI_SHADER_PGM_RSRC1_HS mmSPI_SHADER_PGM_RSRC2_HS
           [c.regs.sh.spiShaderPgmRsrc1Hs, c.regs.sh.spiShaderPgmRsrc2Hs],
         Cmd.SetOneShReg (dev.mmUserDataStartHsShaderStage + ConstBufTblStartReg)
           c.regs.sh.userDataInternalTable] ++
        (if dev.chipProps.supportSpp then
          [Cmd.SetOneShReg mmSPI_SHADER_PGM_CHKSUM_HS c.regs.sh.spiShaderPgmChksumHs]
         else []) ++
        [Cmd.SetOneShRegIndex mmSPI_SHADER_PGM_RSRC3_HS
          (hsDynamicEmitted dev c hsStageInfo).spiShaderPgmRsrc3Hs] ++
        (if IsGfx10Plus dev.chipProps.gfxLevel then
          [Cmd.SetOneShRegIndex mmSPI_SHADER_PGM_RSRC4_HS
            (hsDynamicEmitted dev c hsStageInfo).spiShaderPgmRsrc4Hs]
         else []) ++
        (if c.pHsPerfDataInfo.regOffset ≠ UserDataNotMapped then
          [Cmd.SetOneShReg c.pHsPerfDataInfo.regOffset c.pHsPerfDataInfo.gpuVirtAddr]
         else []) :=
  writeShCommands_decomp dev c pCmdSpace hsStageInfo

/-- Claim C3: `WriteShCommands` never mutates the stored snapshot (the
method only reads the receiver, patching a local scratch copy), and two
calls with different overrides on the same instance produce outputs
that differ only in the values of the override-bearing (indexed
SH-register) writes. -/
theorem writeShCommands_snapshot_immutable (dev : Device) (c : PipelineChunkHs)
    (pCmdSpace : List Cmd) (hsStageInfo1 hsStageInfo2 : DynamicStageInfo) :
    (PipelineChunkHs.WriteShCommands dev c pCmdSpace hsStageInfo1).1 = c ∧
    ((PipelineChunkHs.WriteShCommands dev c pCmdSpace hsStageInfo1).2).map scrubDynamicValues =
      ((PipelineChunkHs.WriteShCommands dev c pCmdSpace hsStageInfo2).2).map scrubDynamicValues := by
  refine ⟨rfl, ?_⟩
  rw [writeShCommands_decomp, writeShCommands_decomp]
  cases hSpp : dev.chipProps.supportSpp <;>
    cases hGfx : IsGfx10Plus dev.chipProps.gfxLevel <;>
    by_cases hPerf : c.pHsPerfDataInfo.regOffset = UserDataNotMapped <;>
    simp [hSpp, hGfx, hPerf, scrubDynamicValues]

/-- Claim C1: with no wave-limit override and a snapshot wave-limit
field of 0, the RSRC3 value emitted by `WriteShCommands` carries the
architectural maximum wave limit (never 0) on the flagged GFX9
generation, and carries the unchanged 0 on every other generation. The
well-formedness hypotheses say the architectural maximum is a nonzero
value that fits the 6-bit field. -/
theorem writeShCommands_gfx9_zero_wave_limit_compensation (dev : Device)
    (c : PipelineChunkHs) (hsStageInfo : DynamicStageInfo)
    (hOverride : hsStageInfo.wavesPerSh = 0)
    (hSnap : WAVE_LIMIT_get c.regs.dynamic.spiShaderPgmRsrc3Hs = 0)
    (hMaxPos : 0 < dev.maxWavesPerSh) (hMaxFits : dev.maxWavesPerSh < 64) :
    (findDynRegWrite mmSPI_SHADER_PGM_RSRC3_HS
        (PipelineChunkHs.WriteShCommands dev c [] hsStageInfo).2).map WAVE_LIMIT_get =
      some (if IsGfx9 dev.chipProps.gfxLevel then dev.maxWavesPerSh else 0) ∧
    (IsGfx9 dev.chipProps.gfxLevel = true →
      (findDynRegWrite mmSPI_SHADER_PGM_RSRC3_HS
        (PipelineChunkHs.WriteShCommands dev c [] hsStageInfo).2).map WAVE_LIMIT_get ≠
        some 0) := by
  have hfind := findDynRegWrite_writeShCommands dev c hsStageInfo
  have hwl := hsDynamicEmitted_waveLimit_zero dev c hsStageInfo hOverride hSnap hMaxFits
  constructor
  · rw [hfind]
    simpa using hwl
  · intro hG
    rw [hfind]
    simp [hwl, hG]
    omega

/-- Witness for claim C1 on a concrete GFX9 device with architectural
maximum 16 and an all-default snapshot. -/
theorem writeShCommands_gfx9_zero_wave_limit_compensation_witness :
    (findDynRegWrite mmSPI_SHADER_PGM_RSRC3_HS
        (PipelineChunkHs.WriteShCommands devW2
          (PipelineChunkHs.init { regOffset := 0, gpuVirtAddr := 0 }) []
          { wavesPerSh := 0, cuEnableMask := 0 }).2).map WAVE_LIMIT_get =
      some (if IsGfx9 devW2.chipProps.gfxLevel then devW2.maxWavesPerSh else 0) :=
  (writeShCommands_gfx9_zero_wave_limit_compensation devW2
    (PipelineChunkHs.init { regOffset := 0, gpuVirtAddr := 0 })
    { wavesPerSh := 0, cuEnableMask := 0 } rfl (by decide) (by decide) (by decide)).1

/-- Claim C10: the CU-enable override is applied to the emitted RSRC3
value by leaving the snapshot field unchanged for a zero mask and by
bitwise AND for a nonzero mask; either way the emitted enable mask
never enables a compute unit the snapshot had disabled. -/
theorem writeShCommands_cu_mask_override_only_restricts (dev : Device)
    (c : PipelineChunkHs) (hsStageInfo : DynamicStageInfo) :
    (findDynRegWrite mmSPI_SHADER_PGM_RSRC3_HS
        (PipelineChunkHs.WriteShCommands dev c [] hsStageInfo).2).map CU_EN_get =
      some (if hsStageInfo.cuEnableMask = 0 then
              CU_EN_get c.regs.dynamic.spiShaderPgmRsrc3Hs
            else CU_EN_get c.regs.dynamic.spiShaderPgmRsrc3Hs &&& hsStageInfo.cuEnableMask) ∧
    (findDynRegWrite mmSPI_SHADER_PGM_RSRC3_HS
        (PipelineChunkHs.WriteShCommands dev c [] hsStageInfo).2).map
        (fun v => CU_EN_get v &&& CU_EN_get c.regs.dynamic.spiShaderPgmRsrc3Hs) =
      (findDynRegWrite mmSPI_SHADER_PGM_RSRC3_HS
        (PipelineChunkHs.WriteShCommands dev c [] hsStageInfo).2).map CU_EN_get := by
  have hfind := findDynRegWrite_writeShCommands dev c hsStageInfo
  have hcu := hsDynamicEmitted_cuEn dev c hsStageInfo
  constructor
  · rw [hfind]
    simpa using hcu
  · rw [hfind]
    simp only [Option.map, hcu]
    by_cases hm : hsStageInfo.cuEnableMask = 0
    · simp [hm, Nat.and_self]
    · simp [hm, and_mask_and_self]

end Pal

namespace Pal

/-- Claim C8: the chip-checksum register is populated from the register
lookup during `LateInit` exactly when the device reports SPP support
(otherwise the snapshot field is left untouched, ignoring the lookup),
and `WriteShCommands` appends exactly one write covering the checksum
register address when SPP is supported and none otherwise. The
inequality hypotheses state that the variable register
addresses do not alias the checksum register address. -/
theorem chksum_register_gated_by_spp (dev : Device)
    (abiReader : PipelineSymbolType → Option SymbolTableEntry)
    (registers : RegisterVector)
    (pUploader : PipelineSymbolType → Option GpuSymbol)
    (pHasher : List HsContextRegs) (c : PipelineChunkHs)
    (hsStageInfo : DynamicStageInfo)
    (hPerf : c.pHsPerfDataInfo.regOffset ≠ mmSPI_SHADER_PGM_CHKSUM_HS)
    (hLo : dev.mmSpiShaderPgmLoLs ≠ mmSPI_SHADER_PGM_CHKSUM_HS)
    (hUd : dev.mmUserDataStartHsShaderStage + ConstBufTblStartReg ≠
      mmSPI_SHADER_PGM_CHKSUM_HS) :
    (PipelineChunkHs.LateInit dev abiReader registers pUploader pHasher c).map
        (fun r => r.1.regs.sh.spiShaderPgmChksumHs) =
      (PipelineChunkHs.LateInit dev abiReader registers pUploader pHasher c).map
        (fun _ =>
          if dev.chipProps.supportSpp then
            (registers.HasEntry mmSPI_SHADER_PGM_CHKSUM_HS).getD
              c.regs.sh.spiShaderPgmChksumHs
          else c.regs.sh.spiShaderPgmChksumHs) ∧
    ((PipelineChunkHs.WriteShCommands dev c [] hsStageInfo).2.countP
        (cmdWritesReg mmSPI_SHADER_PGM_CHKSUM_HS) =
      if dev.chipProps.supportSpp then 1 else 0) := by
  constructor
  · cases hMain : pUploader PipelineSymbolType.HsMainEntry with
    | some symbol =>
        by_cases hAligned : symbol.gpuVirtAddr % 256 = 0
        · simp only [PipelineChunkHs.LateInit, hMain, if_pos hAligned, Except.map]
          rw [lateInitTail_chksum]
        · simp [PipelineChunkHs.LateInit, hMain, hAligned, Except.map]
    | none =>
        simp only [PipelineChunkHs.LateInit, hMain, Except.map]
        rw [lateInitTail_chksum]
  · rw [writeShCommands_decomp]
    simp only [mmSPI_SHADER_PGM_CHKSUM_HS] at hPerf hLo hUd
    cases hSpp : dev.chipProps.supportSpp <;>
      cases hGfx : IsGfx10Plus dev.chipProps.gfxLevel <;>
      by_cases hP : c.pHsPerfDataInfo.regOffset = UserDataNotMapped <;>
      simp [hSpp, hGfx, hP, cmdWritesReg, hPerf, hLo, hUd,
        mmSPI_SHADER_PGM_CHKSUM_HS, mmSPI_SHADER_PGM_RSRC1_HS,
        mmSPI_SHADER_PGM_RSRC2_HS, mmSPI_SHADER_PGM_RSRC3_HS,
        mmSPI_SHADER_PGM_RSRC4_HS, List.countP_append, List.countP_cons]

end Pal

namespace Pal

/-- Witness for claim C8 on a concrete SPP-capable device: exactly one
checksum-register write is emitted. -/
theorem chksum_register_gated_by_spp_witness :
    ((PipelineChunkHs.WriteShCommands devW4
        (PipelineChunkHs.init { regOffset := 0, gpuVirtAddr := 0 }) []
        { wavesPerSh := 0, cuEnableMask := 0 }).2.countP
      (cmdWritesReg mmSPI_SHADER_PGM_CHKSUM_HS) =
      if devW4.chipProps.supportSpp then 1 else 0) :=
  (chksum_register_gated_by_spp devW4 (fun _ => none) regsW4 (fun _ => none) []
    (PipelineChunkHs.init { regOffset := 0, gpuVirtAddr := 0 })
    { wavesPerSh := 0, cuEnableMask := 0 }
    (by decide) (by decide) (by decide)).2

end Pal

namespace Util.Abi

namespace Metadata

/-- Claim C7: the decoder rejects a blob with `VersionUnsupported`
exactly when the major version of the blob exceeds the supported major
version; any blob with major version at most the supported one and a
pipelines entry decodes without error whatever its minor version; and
pipeline fields with keys unknown to the decoder are skipped without
affecting the result. -/
theorem version_gate_and_unknown_field_tolerance :
    (∀ supportedMajor blob,
        DeserializePalCodeObjectMetadata supportedMajor blob =
            Except.error DecodeError.versionUnsupported ↔
          ∃ major minor, blob.version = some (major, minor) ∧ supportedMajor < major) ∧
    (∀ supportedMajor major minor fields, major ≤ supportedMajor →
        ∃ m, DeserializePalCodeObjectMetadata supportedMajor
            { version := some (major, minor), pipelines := some fields } =
          Except.ok m) ∧
    (∀ key value fields1 fields2, key ∉ knownPipelineKeys →
        decodePipelineFields (fields1 ++ (key, value) :: fields2) =
          decodePipelineFields (fields1 ++ fields2)) := by
  refine ⟨?_, ?_, ?_⟩
  · intro supportedMajor blob
    constructor
    · intro h
      match hv : blob.version with
      | none => simp [DeserializePalCodeObjectMetadata, hv] at h
      | some (major, minor) =>
          refine ⟨major, minor, rfl, ?_⟩
          by_cases hlt : supportedMajor < major
          · exact hlt
          · exfalso
            match hp : blob.pipelines with
            | none => simp [DeserializePalCodeObjectMetadata, hv, hp, hlt] at h
            | some fields => simp [DeserializePalCodeObjectMetadata, hv, hp, hlt] at h
    · rintro ⟨major, minor, hv, hlt⟩
      simp [DeserializePalCodeObjectMetadata, hv, hlt]
  · intro supportedMajor major minor fields h
    exact ⟨{ version := (major, minor), pipeline := decodePipelineFields fields,
             hasEntryVersion := true },
           by simp [DeserializePalCodeObjectMetadata, Nat.not_lt.mpr h]⟩
  · intro key value fields1 fields2 hk
    simp only [knownPipelineKeys, List.mem_cons, List.mem_singleton, not_or,
      List.not_mem_nil] at hk
    simp only [decodePipelineFields, List.foldl_append, List.foldl_cons]
    have hstep : ∀ m : PipelineMetadata, decodePipelineField m (key, value) = m := by
      intro m
      simp [decodePipelineField, hk.1, hk.2.1, hk.2.2]
    rw [hstep]

/-- Witness for claim C7: a supported major version of 2 rejects a blob
of major version 3 with `VersionUnsupported`. -/
theorem version_gate_and_unknown_field_tolerance_witness :
    DeserializePalCodeObjectMetadata 2 blobW7 =
      Except.error DecodeError.versionUnsupported :=
  (version_gate_and_unknown_field_tolerance.1 2 blobW7).mpr ⟨3, 0, rfl, by decide⟩

/-- Claim C9: the legacy deserialize overload returns the same result as
the plain overload on the same inputs; when that result is success and
the out-pointer is non-null, the pointee becomes the pipeline
registers offset if the registers presence bit is set and 0xffffffff if
it is clear; on any non-success result, or through a null pointer, the
pointee is left unwritten. -/
theorem legacy_overload_matches_plain (supportedMajor : Nat)
    (blob : PalMetadataBlob) (pRegistersOffset : Option Nat) :
    (DeserializePalCodeObjectMetadataLegacy supportedMajor blob pRegistersOffset).1 =
      DeserializePalCodeObjectMetadata supportedMajor blob ∧
    (∀ pMetadata prev,
        DeserializePalCodeObjectMetadata supportedMajor blob = Except.ok pMetadata →
        pRegistersOffset = some prev →
        (DeserializePalCodeObjectMetadataLegacy supportedMajor blob pRegistersOffset).2 =
          some (if pMetadata.pipeline.hasEntry.registers then
                  pMetadata.pipeline.registers
                else 0xffffffff)) ∧
    (∀ e, DeserializePalCodeObjectMetadata supportedMajor blob = Except.error e →
        (DeserializePalCodeObjectMetadataLegacy supportedMajor blob pRegistersOffset).2 =
          pRegistersOffset) ∧
    (pRegistersOffset = none →
        (DeserializePalCodeObjectMetadataLegacy supportedMajor blob pRegistersOffset).2 =
          none) := by
  cases hd : DeserializePalCodeObjectMetadata supportedMajor blob <;>
    cases hp : pRegistersOffset <;>
    simp [DeserializePalCodeObjectMetadataLegacy, hd, hp]

/-- Witness for claim C9: a concrete successful decode with the
registers presence bit set reports the registers offset 7 through the
out-pointer. -/
theorem legacy_overload_matches_plain_witness :
    (DeserializePalCodeObjectMetadataLegacy 1 blobW9 (some 0)).2 =
      some (if metaW9.pipeline.hasEntry.registers then
              metaW9.pipeline.registers
            else 0xffffffff) :=
  (legacy_overload_matches_plain 1 blobW9 (some 0)).2.1 metaW9 0 rfl rfl

end Metadata

end Util.Abi
